import Mathlib

/-!
Verification development for the `combined_planner` ROS node
(`CombinedPlannerNode.cpp`): a navigation mission supervisor that turns map
updates and goal requests into path-following commands for a motion-control
executor.

The node is embedded shallowly.  The supervisor's member state becomes
`NodeState`; each message handler / the per-tick `update` becomes a pure
function from the state and an *oracle* (the outcomes the external
collaborators — tf, the planner, the local costmap and the motion-control
action client — produce during that one invocation) to the successor state
together with a trace of the external calls the handler performs, in program
order.  The planner, tf and the action server are opaque stateful
collaborators, so their query results are free oracle inputs; the claims under
verification are control-flow properties that must hold for *every* oracle
outcome, which this models exactly.

Floating-point payloads (poses, speeds) never influence control flow in the
source, so coordinates are carried as `Int` values and the fixed command
parameters (`v = 0.7`, `pos_tolerance = 0.20`) are not modelled.
-/

namespace CombinedPlanner

/-- A 2-D pose `(x, y, theta)` as used by `lib_path::Pose2d`.  The numeric
payload is opaque to the supervisor's control flow. -/
structure Pose2d where
  x : Int
  y : Int
  theta : Int
deriving DecidableEq, Repr

/-- An occupancy-grid message: the frame identifier carried in its header and
an opaque snapshot of its contents. -/
structure MapMsg where
  frameId : String
  data : Nat
deriving DecidableEq, Repr

/-- One observable external call made by the node, in program order.
`publishPath` covers `publishLocalPath` / `publishEmptyLocalPath` (topic
`path_topic_`, which the executor follows); `publishMarker` covers
`visualizePath` / `visualizeWaypoints`; `sendGoal`, `cancelAll` and
`waitForServer` are the motion-control action-client calls; the `engine...`,
`isGoalReached`, `hasValidPath`, `hasNewLocalPath`, `get...`, `setGlobalMap`
and `setLocalMap` events are the `CombinedPlanner` engine calls;
`lookupPose` / `transformGoal` are the tf calls; `clearFootprint` /
`getCostmapCopy` address the local costmap wrapper. -/
inductive Call where
  | cancelAll : Call
  | waitForServer : Call
  | sendGoal (pathTopic : String) (path : List Pose2d) : Call
  | setGlobalMap : Call
  | setLocalMap : Call
  | engineSetGoal (start goal : Pose2d) : Call
  | engineUpdate (pose : Pose2d) (forceReplan : Bool) : Call
  | isGoalReached (pose : Pose2d) : Call
  | hasValidPath : Call
  | hasNewLocalPath : Call
  | getLocalPath : Call
  | getGlobalPath : Call
  | getGlobalWaypoints : Call
  | lookupPose : Call
  | transformGoal : Call
  | clearFootprint : Call
  | getCostmapCopy : Call
  | restartReplanTimer : Call
  | publishPath (frameId : String) (poses : List Pose2d) : Call
  | publishMarker (frameId : String) (ns : String) (id : Int) : Call
  | logInfo (msg : String) : Call
  | logWarn (msg : String) : Call
  | logError (msg : String) : Call
deriving DecidableEq, Repr

/-- The supervisor's member state: the `active_` flag, the `got_map_`
readiness flag, the stored global frame id `gmap_frame_id_`, the cached
global map copy `gmap_cpy_`, the cached local map copy `lmap_cpy_` and the
`path_topic_` parameter. -/
structure NodeState where
  active : Bool
  got_map : Bool
  gmapFrameId : String
  gmapData : Nat
  lmapData : Nat
  pathTopic : String
deriving DecidableEq, Repr

/-- The state right after the constructor ran with default parameters: not
active, no map received, default-constructed (empty) frame id and map
caches. -/
def initState : NodeState :=
  { active := false, got_map := false, gmapFrameId := "", gmapData := 0,
    lmapData := 0, pathTopic := "/path" }

/-- Oracle for one per-tick `update()` invocation: outcomes of the tf lookup,
the planner queries, the planner update (which may throw a
`CombinedPlannerException`), the local costmap snapshot, and the value
`replan_timer_.msElapsed()` would return that tick. -/
structure TickOracle where
  poseOk : Bool
  robotPose : Pose2d
  goalReached : Bool
  updateThrows : Bool
  hasValidPath : Bool
  hasNewLocalPath : Bool
  localPath : List Pose2d
  lmapSnapshot : Nat
  elapsedMs : Nat
deriving DecidableEq, Repr

/-- Oracle for one `updateGoal` invocation: the incoming goal message's frame
and pose, the outcome of the tf transform and pose lookup, whether
`setGoal` throws, the planner validity query, whether the action server
connects within the 1.0 s wait, the planner's local path, and the local
costmap snapshot. -/
structure GoalOracle where
  goalFrameId : String
  goalPose : Pose2d
  transformOk : Bool
  transformedPose : Pose2d
  poseOk : Bool
  robotPose : Pose2d
  setGoalThrows : Bool
  hasValidPath : Bool
  serverReady : Bool
  localPath : List Pose2d
  lmapSnapshot : Nat
deriving DecidableEq, Repr

/-- Model of `CombinedPlannerNode::publishEmptyLocalPath`: publish a path message with
no poses, stamped with the stored global frame id. -/
def publishEmptyLocalPath (s : NodeState) : List Call :=
  [Call.publishPath s.gmapFrameId []]

/-- Model of `CombinedPlannerNode::deactivate`: log, cancel all action goals, clear
`active_`, then publish an empty local path as the visible cleared signal. -/
def deactivate (s : NodeState) : NodeState × List Call :=
  ({ s with active := false },
   [Call.logInfo "Deactivating path planner.", Call.cancelAll] ++
     publishEmptyLocalPath s)

/-- Model of `CombinedPlannerNode::getRobotPose`: a tf lookup of `/base_link` in the
map frame; on failure an error is logged and `false` is returned. -/
def getRobotPose (ok : Bool) (pose : Pose2d) : Option Pose2d × List Call :=
  if ok then
    (some pose, [Call.lookupPose])
  else
    (none, [Call.lookupPose,
      Call.logError "Error getting the robot position. Reason: %s"])

/-- Model of `CombinedPlannerNode::activate`: deactivate first if still active, wait
(bounded 1.0 s) for the motion-control action server — on timeout warn and
return with `active_` still false — otherwise set `active_`, build the
`MOTION_FOLLOW_PATH` goal from the planner's current local path and send it. -/
def activate (s : NodeState) (serverReady : Bool) (localPath : List Pose2d) :
    NodeState × List Call :=
  let first := if s.active then deactivate s else (s, [])
  if serverReady then
    ({ first.1 with active := true },
     first.2 ++ [Call.waitForServer, Call.getLocalPath,
       Call.sendGoal first.1.pathTopic localPath])
  else
    (first.1,
     first.2 ++ [Call.waitForServer,
       Call.logWarn "Motion control action server did not connect within 1.0 seconds"])

/-- Model of `CombinedPlannerNode::updateMap`: copy the incoming occupancy grid into
the global map cache, set the stored frame id to the constant `"/map"`
(the message's own frame id is ignored) and mark `got_map_`. -/
def updateMap (s : NodeState) (m : MapMsg) : NodeState × List Call :=
  ({ s with gmapData := m.data, gmapFrameId := "/map", got_map := true }, [])

/-- Remainder of `CombinedPlannerNode::updateGoal` once the goal pose
`goalMap` is available in map coordinates: fetch the robot pose, hand the
global map and a fresh local-map snapshot to the planner, call `setGoal`
(which may throw), check `hasValidPath`, and on success `activate` and
publish the global-path and waypoint markers. -/
def adoptGoal (s : NodeState) (o : GoalOracle) (goalMap : Pose2d)
    (pre : List Call) : NodeState × List Call :=
  match getRobotPose o.poseOk o.robotPose with
  | (none, tp) => (s, pre ++ tp)
  | (some robotPose, tp) =>
    let s2 := { s with lmapData := o.lmapSnapshot }
    let t2 := pre ++ tp ++ [Call.setGlobalMap, Call.clearFootprint,
      Call.getCostmapCopy, Call.setLocalMap]
    if o.setGoalThrows then
      (s2, t2 ++ [Call.engineSetGoal robotPose goalMap,
        Call.logError "Cannot plan a path. Reason: %s"])
    else if o.hasValidPath then
      let act := activate s2 o.serverReady o.localPath
      (act.1, t2 ++ [Call.engineSetGoal robotPose goalMap, Call.hasValidPath] ++
        act.2 ++
        [Call.getGlobalPath, Call.publishMarker act.1.gmapFrameId "global_path" 1,
         Call.getGlobalWaypoints, Call.publishMarker act.1.gmapFrameId "waypoints" 3,
         Call.logInfo "Goal updated."])
    else
      (s2, t2 ++ [Call.engineSetGoal robotPose goalMap, Call.hasValidPath,
        Call.logWarn "No path found!"])

/-- Model of `CombinedPlannerNode::updateGoal`: log, deactivate unconditionally,
convert the goal into the stored global frame when its frame differs
(abort adoption if the transform fails), then continue with `adoptGoal`. -/
def updateGoal (s : NodeState) (o : GoalOracle) : NodeState × List Call :=
  let d := deactivate s
  let pre := Call.logInfo "Got a new goal" :: d.2
  if o.goalFrameId = s.gmapFrameId then
    adoptGoal d.1 o o.goalPose pre
  else if o.transformOk then
    adoptGoal d.1 o o.transformedPose (pre ++ [Call.transformGoal])
  else
    (d.1, pre ++ [Call.transformGoal,
      Call.logError "Cannot transform goal into map coordinates. Reason: %s"])

/-- Model of `CombinedPlannerNode::update` (the per-tick body): return immediately
when not active; otherwise look up the pose (failure deactivates), check
`isGoalReached` (reaching it deactivates before any planning), refresh the
local map, run `planner_.update` with the hard-coded replan hint `false`
(the `replan_timer_.msElapsed() > 500` expression is commented out in the
source), deactivate on a planning exception or on a missing valid path, and
publish the new local path only when `hasNewLocalPath` reports one. -/
def update (s : NodeState) (o : TickOracle) : NodeState × List Call :=
  if s.active then
    match getRobotPose o.poseOk o.robotPose with
    | (none, tp) =>
      let d := deactivate s
      (d.1, tp ++ d.2)
    | (some robotPose, tp) =>
      if o.goalReached then
        let d := deactivate s
        ({ d.1 with active := false },
         tp ++ [Call.isGoalReached robotPose, Call.logInfo "Goal reached."] ++ d.2)
      else
        let s2 := { s with lmapData := o.lmapSnapshot }
        let t2 := tp ++ [Call.isGoalReached robotPose, Call.clearFootprint,
          Call.getCostmapCopy, Call.setLocalMap]
        if o.updateThrows then
          let d := deactivate s2
          ({ d.1 with active := false },
           t2 ++ [Call.engineUpdate robotPose false,
             Call.logError "Error planning a path. Reason: %s"] ++ d.2)
        else if o.hasValidPath then
          if o.hasNewLocalPath then
            (s2, t2 ++ [Call.engineUpdate robotPose false, Call.hasValidPath,
              Call.hasNewLocalPath, Call.logInfo "Publishing new local path",
              Call.getLocalPath, Call.publishPath s2.gmapFrameId o.localPath,
              Call.restartReplanTimer,
              Call.getGlobalWaypoints, Call.publishMarker s2.gmapFrameId "waypoints" 3])
          else
            (s2, t2 ++ [Call.engineUpdate robotPose false, Call.hasValidPath,
              Call.hasNewLocalPath])
        else
          let d := deactivate s2
          (d.1, t2 ++ [Call.engineUpdate robotPose false, Call.hasValidPath] ++ d.2)
  else
    (s, [])

/-- An inbound event the node reacts to: a map message, a goal message, or a
timer tick of the main loop. -/
inductive Event where
  | mapMsg (m : MapMsg) : Event
  | goalMsg (o : GoalOracle) : Event
  | tick (o : TickOracle) : Event
deriving DecidableEq, Repr

/-- Dispatch one inbound event to its handler. -/
def stepEvent (s : NodeState) (e : Event) : NodeState × List Call :=
  match e with
  | Event.mapMsg m => updateMap s m
  | Event.goalMsg o => updateGoal s o
  | Event.tick o => update s o

/-- Run a sequence of inbound events from a state, concatenating the call
traces in order. -/
def runEvents : NodeState → List Event → NodeState × List Call
  | s, [] => (s, [])
  | s, e :: es =>
    ((runEvents (stepEvent s e).1 es).1,
     (stepEvent s e).2 ++ (runEvents (stepEvent s e).1 es).2)

/-- Run a sequence of ticks from a state, concatenating the call traces. -/
def runTicks : NodeState → List TickOracle → NodeState × List Call
  | s, [] => (s, [])
  | s, o :: os =>
    ((runTicks (update s o).1 os).1,
     (update s o).2 ++ (runTicks (update s o).1 os).2)

/-- Is the call addressed to the planning engine. -/
def isEngineCall : Call → Bool
  | Call.setGlobalMap => true
  | Call.setLocalMap => true
  | Call.engineSetGoal _ _ => true
  | Call.engineUpdate _ _ => true
  | Call.isGoalReached _ => true
  | Call.hasValidPath => true
  | Call.hasNewLocalPath => true
  | Call.getLocalPath => true
  | Call.getGlobalPath => true
  | Call.getGlobalWaypoints => true
  | _ => false

/-- Is the call addressed to the motion-control action client (the
path-execution actuator). -/
def isExecutorCall : Call → Bool
  | Call.cancelAll => true
  | Call.waitForServer => true
  | Call.sendGoal _ _ => true
  | _ => false

/-- Is the call a `sendGoal` (issuing a path-following command). -/
def isSendGoal : Call → Bool
  | Call.sendGoal _ _ => true
  | _ => false

/-- Is the call a `cancelAllGoals`. -/
def isCancelAll : Call → Bool
  | Call.cancelAll => true
  | _ => false

/-- Is the call an `engineUpdate` (the planner's `update` member). -/
def isEngineUpdate : Call → Bool
  | Call.engineUpdate _ _ => true
  | _ => false

/-- Is the call an `engineSetGoal` (the planner's `setGoal` member). -/
def isEngineSetGoal : Call → Bool
  | Call.engineSetGoal _ _ => true
  | _ => false

/-- Is the call a publication on the followed path topic. -/
def isPathPublish : Call → Bool
  | Call.publishPath _ _ => true
  | _ => false

/-- Number of `sendGoal` calls in a trace. -/
def sendGoalCount (t : List Call) : Nat := t.countP isSendGoal

/-- Number of `cancelAllGoals` calls in a trace. -/
def cancelAllCount (t : List Call) : Nat := t.countP isCancelAll

/-- Number of planning-engine calls in a trace. -/
def engineCallCount (t : List Call) : Nat := t.countP isEngineCall

/-- Number of `planner_.update` calls in a trace. -/
def engineUpdateCount (t : List Call) : Nat := t.countP isEngineUpdate

/-- Number of `planner_.setGoal` calls in a trace. -/
def engineSetGoalCount (t : List Call) : Nat := t.countP isEngineSetGoal

/-- Number of path-topic publications in a trace. -/
def pathPushCount (t : List Call) : Nat := t.countP isPathPublish

/-- The replan hints handed to `planner_.update`, in order. -/
def hintsPassed : List Call → List Bool
  | [] => []
  | Call.engineUpdate _ b :: t => b :: hintsPassed t
  | _ :: t => hintsPassed t

/-- The frame identifiers stamped on published paths and markers, in order. -/
def framesStamped : List Call → List String
  | [] => []
  | Call.publishPath f _ :: t => f :: framesStamped t
  | Call.publishMarker f _ _ :: t => f :: framesStamped t
  | _ :: t => framesStamped t

/-- Whether the executor holds a non-cancelled path-following command after
one more observed call: `sendGoal` issues one, `cancelAll` cancels them
all, every other call leaves the executor unchanged. -/
def execStep (cmd : Bool) : Call → Bool
  | Call.cancelAll => false
  | Call.sendGoal _ _ => true
  | _ => cmd

/-- Executor command status after a whole trace of calls. -/
def execRun : Bool → List Call → Bool
  | cmd, [] => cmd
  | cmd, c :: t => execRun (execStep cmd c) t

/-- Number of `cancelAll` calls in the trace that cancel an actually
outstanding command (an "observable effect"), starting from executor
status `cmd`. -/
def effectfulCancels : Bool → List Call → Nat
  | _, [] => 0
  | cmd, Call.cancelAll :: t => (if cmd then 1 else 0) + effectfulCancels false t
  | _, Call.sendGoal _ _ :: t => effectfulCancels true t
  | cmd, _ :: t => effectfulCancels cmd t

theorem execRun_append (t1 t2 : List Call) (cmd : Bool) :
    execRun cmd (t1 ++ t2) = execRun (execRun cmd t1) t2 := by
  induction t1 generalizing cmd with
  | nil => simp [execRun]
  | cons c t ih => simp [execRun, ih]

/-- A tick on which the planner keeps a valid path but reports no new local
segment (and nothing else goes wrong before that check). -/
def noNewPathTick (o : TickOracle) : Bool :=
  o.poseOk && !o.goalReached && !o.updateThrows && o.hasValidPath &&
    !o.hasNewLocalPath

/-- A sample tick-oracle outcome where everything succeeds. -/
def tickOracle0 : TickOracle :=
  { poseOk := true, robotPose := ⟨0, 0, 0⟩, goalReached := false,
    updateThrows := false, hasValidPath := true, hasNewLocalPath := true,
    localPath := [⟨1, 1, 0⟩], lmapSnapshot := 0, elapsedMs := 0 }

/-- A sample active state (reached after a map and a successful goal). -/
def activeState : NodeState :=
  { active := true, got_map := true, gmapFrameId := "/map", gmapData := 1,
    lmapData := 1, pathTopic := "/path" }

/-- A tick whose only deviation from `tickOracle0` is that the planner
reports no new local segment. -/
def quietTick : TickOracle := { tickOracle0 with hasNewLocalPath := false }

theorem update_idle (s : NodeState) (o : TickOracle) (h : s.active = false) :
    update s o = (s, []) := by
  simp [update, h]

/-- Claim C3: while the state is Idle, every tick (and hence every sequence
of ticks) makes no calls to the planning engine or the executor and leaves
the supervisor state unchanged — `update` returns immediately with an empty
call trace. -/
theorem C3_idle_ticks_noop (s : NodeState) (os : List TickOracle)
    (h : s.active = false) : runTicks s os = (s, []) := by
  induction os with
  | nil => rfl
  | cons o os ih => simp [runTicks, update_idle s o h, ih]

/-- Witness for C3 at the freshly constructed (Idle) state and three
concrete ticks. -/
theorem C3_idle_ticks_noop_witness :
    runTicks initState [tickOracle0, quietTick, tickOracle0] = (initState, []) :=
  C3_idle_ticks_noop initState [tickOracle0, quietTick, tickOracle0] rfl

/-- Claim C4: on an Active tick where the pose lookup succeeds and
`isGoalReached` is true, `planner_.update` is never called that tick, the
supervisor deactivates (one `cancelAllGoals`) and the state becomes Idle. -/
theorem C4_goal_reached_priority (s : NodeState) (o : TickOracle)
    (hA : s.active = true) (hp : o.poseOk = true) (hg : o.goalReached = true) :
    (update s o).1.active = false ∧ engineUpdateCount (update s o).2 = 0 ∧
    cancelAllCount (update s o).2 = 1 := by
  simp [update, getRobotPose, deactivate, publishEmptyLocalPath, hA, hp, hg,
    engineUpdateCount, cancelAllCount, isEngineUpdate, isCancelAll,
    List.countP_cons, List.countP_append]

/-- Witness for C4 at a concrete active state and goal-reached tick. -/
theorem C4_goal_reached_priority_witness :
    (update activeState { tickOracle0 with goalReached := true }).1.active = false ∧
    engineUpdateCount (update activeState { tickOracle0 with goalReached := true }).2 = 0 ∧
    cancelAllCount (update activeState { tickOracle0 with goalReached := true }).2 = 1 :=
  C4_goal_reached_priority activeState { tickOracle0 with goalReached := true }
    rfl rfl rfl

/-- Claim C7: `deactivate` is idempotent.  Starting from an executor that
holds a command, two consecutive `deactivate` calls produce exactly one
`cancelAllGoals` with observable effect; the second call leaves the mission
state unchanged (still Idle); and each call's trace attempts the cancel
before the empty-path publication that signals the cleared state. -/
theorem C7_deactivate_idempotent (s : NodeState) :
    effectfulCancels true ((deactivate s).2 ++ (deactivate (deactivate s).1).2) = 1 ∧
    (deactivate s).1.active = false ∧
    (deactivate (deactivate s).1).1 = (deactivate s).1 ∧
    (deactivate s).2 = [Call.logInfo "Deactivating path planner.", Call.cancelAll,
      Call.publishPath s.gmapFrameId []] ∧
    (deactivate (deactivate s).1).2 = (deactivate s).2 := by
  simp [deactivate, publishEmptyLocalPath, effectfulCancels]

theorem update_noNewPath (s : NodeState) (o : TickOracle) (hA : s.active = true)
    (h : noNewPathTick o = true) :
    update s o = ({ s with lmapData := o.lmapSnapshot },
      [Call.lookupPose, Call.isGoalReached o.robotPose, Call.clearFootprint,
       Call.getCostmapCopy, Call.setLocalMap,
       Call.engineUpdate o.robotPose false, Call.hasValidPath,
       Call.hasNewLocalPath]) := by
  simp only [noNewPathTick, Bool.and_eq_true, Bool.not_eq_true'] at h
  obtain ⟨⟨⟨⟨hp, hg⟩, ht⟩, hv⟩, hn⟩ := h
  simp [update, getRobotPose, hA, hp, hg, ht, hv, hn]

/-- Claim C6: across any sequence of Active ticks on which the planner keeps
a valid path but `hasNewLocalPath()` is false, zero paths are pushed to the
executor (no path-topic publication, no `sendGoal`) and the state remains
Active. -/
theorem C6_no_new_path_no_push (s : NodeState) (os : List TickOracle)
    (hA : s.active = true) (h : os.all noNewPathTick = true) :
    (runTicks s os).1.active = true ∧ pathPushCount (runTicks s os).2 = 0 ∧
    sendGoalCount (runTicks s os).2 = 0 := by
  induction os generalizing s with
  | nil => simp [runTicks, pathPushCount, sendGoalCount, hA]
  | cons o os ih =>
    simp only [List.all_cons, Bool.and_eq_true] at h
    obtain ⟨h1, h2⟩ := h
    have hstep := update_noNewPath s o hA h1
    obtain ⟨ha2, hpp, hsg⟩ := ih { s with lmapData := o.lmapSnapshot } hA h2
    simp only [runTicks, hstep]
    refine ⟨ha2, ?_, ?_⟩
    · simpa [pathPushCount, List.countP_append, List.countP_cons, isPathPublish]
        using hpp
    · simpa [sendGoalCount, List.countP_append, List.countP_cons, isSendGoal]
        using hsg

/-- Witness for C6: five consecutive quiet ticks from a concrete active
state (the spec's Scenario E). -/
theorem C6_no_new_path_no_push_witness :
    (runTicks activeState [quietTick, quietTick, quietTick, quietTick, quietTick]).1.active = true ∧
    pathPushCount (runTicks activeState [quietTick, quietTick, quietTick, quietTick, quietTick]).2 = 0 ∧
    sendGoalCount (runTicks activeState [quietTick, quietTick, quietTick, quietTick, quietTick]).2 = 0 :=
  C6_no_new_path_no_push activeState
    [quietTick, quietTick, quietTick, quietTick, quietTick] rfl (by decide)

/-- The conditions under which the goal-activation sequence fully succeeds:
the goal frame needs no conversion or the conversion succeeds, the robot
pose is available, `setGoal` does not throw, a valid path exists, and the
action server becomes ready within the 1.0 s wait. -/
def goalAdopted (s : NodeState) (o : GoalOracle) : Prop :=
  (o.goalFrameId = s.gmapFrameId ∨ o.transformOk = true) ∧ o.poseOk = true ∧
    o.setGoalThrows = false ∧ o.hasValidPath = true ∧ o.serverReady = true

/-- A sample goal-oracle outcome where adoption fully succeeds against the
initial state (goal already in the stored — still empty — frame). -/
def goalOracle0 : GoalOracle :=
  { goalFrameId := "", goalPose := ⟨5, 5, 0⟩, transformOk := false,
    transformedPose := ⟨0, 0, 0⟩, poseOk := true, robotPose := ⟨0, 0, 0⟩,
    setGoalThrows := false, hasValidPath := true, serverReady := true,
    localPath := [⟨1, 1, 0⟩], lmapSnapshot := 2 }

/-- Claim C1: goal activation is atomic.  For every incoming goal request,
either all of {setGoal succeeds, a valid path exists, the executor endpoint
becomes ready within the 1.0 s wait} hold (together with the preceding frame
conversion and pose lookup), the state becomes Active and exactly one
`sendGoal` is issued — or the state remains Idle and zero `sendGoal` calls
are issued for that request. -/
theorem C1_goal_activation_atomic (s : NodeState) (o : GoalOracle) :
    (goalAdopted s o →
      (updateGoal s o).1.active = true ∧ sendGoalCount (updateGoal s o).2 = 1) ∧
    (¬goalAdopted s o →
      (updateGoal s o).1.active = false ∧ sendGoalCount (updateGoal s o).2 = 0) := by
  by_cases hf : o.goalFrameId = s.gmapFrameId <;>
  cases htr : o.transformOk <;>
  cases hp : o.poseOk <;>
  cases hsg : o.setGoalThrows <;>
  cases hv : o.hasValidPath <;>
  cases hsr : o.serverReady <;>
  simp [updateGoal, adoptGoal, activate, deactivate, publishEmptyLocalPath,
    getRobotPose, goalAdopted, sendGoalCount, isSendGoal, List.countP_cons,
    List.countP_append, hf, htr, hp, hsg, hv, hsr]

/-- Witness for C1: a fully successful adoption yields Active with one
`sendGoal`; the same request with the action server not ready yields Idle
with zero `sendGoal` calls. -/
theorem C1_goal_activation_atomic_witness :
    ((updateGoal initState goalOracle0).1.active = true ∧
      sendGoalCount (updateGoal initState goalOracle0).2 = 1) ∧
    ((updateGoal initState { goalOracle0 with serverReady := false }).1.active = false ∧
      sendGoalCount (updateGoal initState { goalOracle0 with serverReady := false }).2 = 0) :=
  ⟨(C1_goal_activation_atomic initState goalOracle0).1
      ⟨Or.inl rfl, rfl, rfl, rfl, rfl⟩,
   (C1_goal_activation_atomic initState { goalOracle0 with serverReady := false }).2
      (by intro h; exact absurd h.2.2.2.2 (by decide))⟩

/-- A tick on which the tf pose lookup fails. -/
def poseFailTick : TickOracle := { tickOracle0 with poseOk := false }

/-- A tick on which `planner_.update` throws a `CombinedPlannerException`. -/
def throwTick : TickOracle := { tickOracle0 with updateThrows := true }

/-- Claim C5: on an Active tick, if the pose lookup fails or
`planner_.update` throws, the exception (if any) is caught and logged, the
state becomes Idle, exactly one `cancelAllGoals` is made, and no further
planning-engine calls happen that tick (none at all in the pose-failure
case; none after the throwing `update` call in the exception case). -/
theorem C5_failure_deactivates (s : NodeState) (o : TickOracle)
    (hA : s.active = true) :
    (o.poseOk = false →
      (update s o).1.active = false ∧ cancelAllCount (update s o).2 = 1 ∧
      engineCallCount (update s o).2 = 0) ∧
    (o.poseOk = true → o.goalReached = false → o.updateThrows = true →
      (update s o).1.active = false ∧ cancelAllCount (update s o).2 = 1 ∧
      Call.logError "Error planning a path. Reason: %s" ∈ (update s o).2 ∧
      ∃ t1 t2, (update s o).2 = t1 ++ Call.engineUpdate o.robotPose false :: t2 ∧
        engineCallCount t2 = 0) := by
  constructor
  · intro hp
    simp [update, getRobotPose, deactivate, publishEmptyLocalPath, hA, hp,
      cancelAllCount, engineCallCount, isCancelAll, isEngineCall,
      List.countP_cons, List.countP_append]
  · intro hp hg ht
    refine ⟨?_, ?_, ?_,
      [Call.lookupPose, Call.isGoalReached o.robotPose, Call.clearFootprint,
       Call.getCostmapCopy, Call.setLocalMap],
      [Call.logError "Error planning a path. Reason: %s",
       Call.logInfo "Deactivating path planner.", Call.cancelAll,
       Call.publishPath s.gmapFrameId []], ?_, ?_⟩ <;>
    simp [update, getRobotPose, deactivate, publishEmptyLocalPath, hA, hp, hg,
      ht, cancelAllCount, engineCallCount, isCancelAll, isEngineCall,
      List.countP_cons, List.countP_append]

/-- Witness for C5: a pose-lookup failure and a planner exception, each on a
concrete Active tick. -/
theorem C5_failure_deactivates_witness :
    ((update activeState poseFailTick).1.active = false ∧
      cancelAllCount (update activeState poseFailTick).2 = 1 ∧
      engineCallCount (update activeState poseFailTick).2 = 0) ∧
    ((update activeState throwTick).1.active = false ∧
      cancelAllCount (update activeState throwTick).2 = 1 ∧
      Call.logError "Error planning a path. Reason: %s" ∈ (update activeState throwTick).2 ∧
      ∃ t1 t2, (update activeState throwTick).2 =
          t1 ++ Call.engineUpdate throwTick.robotPose false :: t2 ∧
        engineCallCount t2 = 0) :=
  ⟨(C5_failure_deactivates activeState poseFailTick rfl).1 rfl,
   (C5_failure_deactivates activeState throwTick rfl).2 rfl rfl rfl⟩

/-- The replan-hint policy as the specification words it (for comparison
with the source): force a replan exactly when more than 500 ms have elapsed
since the last forced replan. -/
def specReplanHint (elapsedMs : Nat) : Bool := decide (elapsedMs > 500)

/-- The claim of C8 as stated, at one state and tick: every replan hint the
tick hands to `planner_.update` equals the spec's elapsed-time policy. -/
def replanHintFollowsSpec (s : NodeState) (o : TickOracle) : Prop :=
  ∀ b ∈ hintsPassed (update s o).2, b = specReplanHint o.elapsedMs

/-- A tick on which 1000 ms have elapsed since the last forced replan. -/
def lateTick : TickOracle := { tickOracle0 with elapsedMs := 1000 }

/-- Counterexample to C8 as stated: on an Active tick with 1000 ms elapsed
(more than the claimed 500 ms threshold) the hint passed to
`planner_.update` is still `false` — the elapsed-time comparison is
commented out in the source. -/
theorem C8_counterexample_hint_not_elapsed :
    ¬replanHintFollowsSpec activeState lateTick :=
  fun h => absurd (h false (by decide)) (by decide)

/-- Amended C8: on every tick, every replan hint handed to
`planner_.update` is the constant `false`; the 500 ms elapsed-time policy
survives only inside a comment (and the replan timer keeps being restarted
after each published local path, but its value is never read). -/
theorem C8_hint_always_false (s : NodeState) (o : TickOracle) :
    ((hintsPassed (update s o).2).all fun b => !b) = true := by
  cases hA : s.active <;> cases hp : o.poseOk <;> cases hg : o.goalReached <;>
  cases ht : o.updateThrows <;> cases hv : o.hasValidPath <;>
  cases hn : o.hasNewLocalPath <;>
  simp [update, getRobotPose, deactivate, publishEmptyLocalPath, hintsPassed,
    hA, hp, hg, ht, hv, hn]

/-- The supervisor state without its `got_map_` field. -/
def survObs (s : NodeState) : Bool × String × Nat × Nat × String :=
  (s.active, s.gmapFrameId, s.gmapData, s.lmapData, s.pathTopic)

/-- Claim C9: goal adoption never checks whether a global map was received.
`updateGoal` behaves identically whatever `got_map_` holds (same calls,
same successor state up to the untouched flag), `got_map_` is written by
the constructor (`false`) and by `updateMap` (`true`) but read nowhere, and
a goal arriving before any map — while the stored frame id is still the
empty string — still runs the full adoption sequence on the
default-constructed global map, up to and including `setGoal`, `sendGoal`
and activation. -/
theorem C9_got_map_never_read :
    (∀ (s : NodeState) (o : GoalOracle) (b : Bool),
      (updateGoal { s with got_map := b } o).2 = (updateGoal s o).2 ∧
      survObs (updateGoal { s with got_map := b } o).1 = survObs (updateGoal s o).1 ∧
      (updateGoal s o).1.got_map = s.got_map) ∧
    initState.got_map = false ∧ initState.gmapFrameId = "" ∧
    (∀ (s : NodeState) (m : MapMsg), (updateMap s m).1.got_map = true) ∧
    engineSetGoalCount (updateGoal initState goalOracle0).2 = 1 ∧
    sendGoalCount (updateGoal initState goalOracle0).2 = 1 ∧
    (updateGoal initState goalOracle0).1.active = true := by
  refine ⟨fun s o b => ?_, rfl, rfl, fun s m => rfl, by decide, by decide, by decide⟩
  by_cases hf : o.goalFrameId = s.gmapFrameId <;>
  cases htr : o.transformOk <;>
  cases hp : o.poseOk <;>
  cases hsg : o.setGoalThrows <;>
  cases hv : o.hasValidPath <;>
  cases hsr : o.serverReady <;>
  simp [updateGoal, adoptGoal, activate, deactivate, publishEmptyLocalPath,
    getRobotPose, survObs, hf, htr, hp, hsg, hv, hsr]

theorem update_frameId (s : NodeState) (o : TickOracle) :
    (update s o).1.gmapFrameId = s.gmapFrameId := by
  cases hA : s.active <;> cases hp : o.poseOk <;> cases hg : o.goalReached <;>
  cases ht : o.updateThrows <;> cases hv : o.hasValidPath <;>
  cases hn : o.hasNewLocalPath <;>
  simp [update, getRobotPose, deactivate, publishEmptyLocalPath,
    hA, hp, hg, ht, hv, hn]

theorem updateGoal_frameId (s : NodeState) (o : GoalOracle) :
    (updateGoal s o).1.gmapFrameId = s.gmapFrameId := by
  by_cases hf : o.goalFrameId = s.gmapFrameId <;>
  cases htr : o.transformOk <;>
  cases hp : o.poseOk <;>
  cases hsg : o.setGoalThrows <;>
  cases hv : o.hasValidPath <;>
  cases hsr : o.serverReady <;>
  simp [updateGoal, adoptGoal, activate, deactivate, publishEmptyLocalPath,
    getRobotPose, hf, htr, hp, hsg, hv, hsr]

theorem stepEvent_frame (s : NodeState) (e : Event) :
    (stepEvent s e).1.gmapFrameId = s.gmapFrameId ∨
    (stepEvent s e).1.gmapFrameId = "/map" := by
  cases e with
  | mapMsg m => exact Or.inr rfl
  | goalMsg o => exact Or.inl (updateGoal_frameId s o)
  | tick o => exact Or.inl (update_frameId s o)

theorem runEvents_frame (es : List Event) :
    ∀ s : NodeState, s.gmapFrameId = "" ∨ s.gmapFrameId = "/map" →
      (runEvents s es).1.gmapFrameId = "" ∨
      (runEvents s es).1.gmapFrameId = "/map" := by
  induction es with
  | nil => intro s h; exact h
  | cons e es ih =>
    intro s h
    have hstep := stepEvent_frame s e
    rcases hstep with hpres | hmap
    · exact ih (stepEvent s e).1 (hpres ▸ h)
    · exact ih (stepEvent s e).1 (Or.inr hmap)

/-- Claim C10: `updateMap` stores the constant `"/map"` as the global frame
id regardless of the frame carried by the incoming message, so along every
event sequence from the initial state the stored id is either the empty
string (before the first map) or `"/map"`; and every path and marker a
handler publishes is stamped with the stored identifier. -/
theorem C10_frame_id_constant :
    (∀ (s : NodeState) (m : MapMsg), (updateMap s m).1.gmapFrameId = "/map") ∧
    (∀ es : List Event, (runEvents initState es).1.gmapFrameId = "" ∨
      (runEvents initState es).1.gmapFrameId = "/map") ∧
    (∀ (s : NodeState) (e : Event),
      ((framesStamped (stepEvent s e).2).all fun f => f == s.gmapFrameId) = true) := by
  refine ⟨fun s m => rfl, fun es => runEvents_frame es initState (Or.inl rfl),
    fun s e => ?_⟩
  cases e with
  | mapMsg m => rfl
  | goalMsg o =>
    by_cases hf : o.goalFrameId = s.gmapFrameId <;>
    cases htr : o.transformOk <;>
    cases hp : o.poseOk <;>
    cases hsg : o.setGoalThrows <;>
    cases hv : o.hasValidPath <;>
    cases hsr : o.serverReady <;>
    simp [stepEvent, updateGoal, adoptGoal, activate, deactivate,
      publishEmptyLocalPath, getRobotPose, framesStamped, hf, htr, hp, hsg,
      hv, hsr]
  | tick o =>
    cases hA : s.active <;> cases hp : o.poseOk <;> cases hg : o.goalReached <;>
    cases ht : o.updateThrows <;> cases hv : o.hasValidPath <;>
    cases hn : o.hasNewLocalPath <;>
    simp [stepEvent, update, getRobotPose, deactivate, publishEmptyLocalPath,
      framesStamped, hA, hp, hg, ht, hv, hn]

theorem update_exec (s : NodeState) (o : TickOracle) (cmd : Bool)
    (h : s.active = cmd) :
    (update s o).1.active = execRun cmd (update s o).2 := by
  subst h
  cases hA : s.active <;> cases hp : o.poseOk <;> cases hg : o.goalReached <;>
  cases ht : o.updateThrows <;> cases hv : o.hasValidPath <;>
  cases hn : o.hasNewLocalPath <;>
  simp [update, getRobotPose, deactivate, publishEmptyLocalPath, execRun,
    execStep, hA, hp, hg, ht, hv, hn]

theorem updateGoal_exec (s : NodeState) (o : GoalOracle) (cmd : Bool) :
    (updateGoal s o).1.active = execRun cmd (updateGoal s o).2 := by
  by_cases hf : o.goalFrameId = s.gmapFrameId <;>
  cases htr : o.transformOk <;>
  cases hp : o.poseOk <;>
  cases hsg : o.setGoalThrows <;>
  cases hv : o.hasValidPath <;>
  cases hsr : o.serverReady <;>
  simp [updateGoal, adoptGoal, activate, deactivate, publishEmptyLocalPath,
    getRobotPose, execRun, execStep, hf, htr, hp, hsg, hv, hsr]

theorem stepEvent_exec (s : NodeState) (e : Event) (cmd : Bool)
    (h : s.active = cmd) :
    (stepEvent s e).1.active = execRun cmd (stepEvent s e).2 := by
  cases e with
  | mapMsg m => simpa [stepEvent, updateMap, execRun] using h
  | goalMsg o => exact updateGoal_exec s o cmd
  | tick o => exact update_exec s o cmd h

theorem runEvents_exec (es : List Event) :
    ∀ (s : NodeState) (cmd : Bool), s.active = cmd →
      (runEvents s es).1.active = execRun cmd (runEvents s es).2 := by
  induction es with
  | nil => intro s cmd h; simpa [runEvents, execRun] using h
  | cons e es ih =>
    intro s cmd h
    simp only [runEvents]
    rw [execRun_append, ← stepEvent_exec s e cmd h]
    exact ih (stepEvent s e).1 (stepEvent s e).1.active rfl

/-- Claim C2: in every state reachable from the initial state by any
sequence of map updates, goal requests and ticks, the supervisor is Active
exactly when the executor holds a non-cancelled path-following command
issued by this supervisor (`sendGoal` issues one, `cancelAllGoals` revokes
them, as folded over the emitted call trace by `execRun`). -/
theorem C2_active_iff_command (es : List Event) :
    (runEvents initState es).1.active = execRun false (runEvents initState es).2 :=
  runEvents_exec es initState false rfl

end CombinedPlanner
